import Mathlib

/-!
Shallow embedding of the custom RAG system (text chunker, embedding batch
logic, in-memory vector store, and pipeline orchestrator) together with
theorems settling the specification claims.

Strings are modelled as `List Char`, floating-point numbers as `ℝ`.
Python truthiness tests on lists (`if embedding:`) are modelled with
`List.isEmpty`; a provider call that can raise is modelled as a function
returning `Option`.
-/

namespace RAG

open Classical

abbrev Str := List Char

abbrev Vec := List ℝ

abbrev Metadata := List (Str × Str)

/-- `String.data` shorthand so literals convert to our `Str` model. -/
def strL (s : String) : Str := s.data

/-- A loaded document record (`document_loader` output): `content`, `source`,
`metadata` are the fields the core pipeline reads. -/
structure Document where
  content : Str
  source : Str
  metadata : Metadata
deriving DecidableEq

/-- A chunk dict produced by `TextChunker._split_single_document`. -/
structure Chunk where
  content : Str
  source : Str
  chunk_id : ℕ
  start_char : ℕ
  end_char : ℕ
  metadata : Metadata
deriving DecidableEq

instance : Inhabited Chunk := ⟨⟨[], [], 0, 0, 0, []⟩⟩

/-- `TextChunker` configuration (`chunk_size`, `chunk_overlap`). -/
structure ChunkerConfig where
  chunk_size : ℕ
  chunk_overlap : ℕ
deriving DecidableEq

/-- The defaults of `TextChunker.__init__` (1000 / 200). -/
def defaultChunker : ChunkerConfig := ⟨1000, 200⟩

/-- Python `content.rfind(c, a, b)` for a single character: the largest index
`i` with `a ≤ i < min b (length s)` and `s[i] = c`, else `-1`. -/
def pyRfind (s : Str) (c : Char) (a b : ℕ) : Int :=
  (List.range (min b s.length)).foldl
    (fun acc i => if a ≤ i ∧ s.get? i = some c then (i : Int) else acc) (-1)

/-- Python slice `s[a:b]` (with the usual clamping). -/
def sliceStr (s : Str) (a b : ℕ) : Str := (s.take b).drop a

/-- Python `str.strip()`: remove leading and trailing whitespace. -/
def pyStrip (s : Str) : Str :=
  ((s.dropWhile Char.isWhitespace).reverse.dropWhile Char.isWhitespace).reverse

/-- The window-end computation of one iteration of
`TextChunker._split_single_document`: tentative `end = start + chunk_size`,
then if this is not the last chunk, move `end` to one past the rightmost
sentence boundary (`.`, `!`, `?`) strictly after `start`, if any. -/
def chunkEnd (cfg : ChunkerConfig) (content : Str) (start : ℕ) : ℕ :=
  let e0 := start + cfg.chunk_size
  if e0 < content.length then
    let sentence_end := max (max (pyRfind content '.' start e0)
      (pyRfind content '!' start e0)) (pyRfind content '?' start e0)
    if (start : Int) < sentence_end then (sentence_end + 1).toNat else e0
  else e0

/-- The `while start < len(content)` loop of
`TextChunker._split_single_document`.  Returns the accumulated chunk list
together with the number of loop iterations executed.  `chunk_id` is the
count of chunks emitted so far (`len(chunks)` at append time). -/
def splitLoop (cfg : ChunkerConfig) (content source : Str) (md : Metadata)
    (start : ℕ) (acc : List Chunk) : List Chunk × ℕ :=
  if h : start < content.length then
    let e := chunkEnd cfg content start
    let cc := pyStrip (sliceStr content start e)
    let acc2 := if cc.isEmpty then acc
      else acc ++ [⟨cc, source, acc.length, start, e, md⟩]
    let r := splitLoop cfg content source md
      (max (start + 1) (e - cfg.chunk_overlap)) acc2
    (r.1, r.2 + 1)
  else (acc, 0)
termination_by content.length - start
decreasing_by
  have h1 : start + 1 ≤ max (start + 1) (chunkEnd cfg content start - cfg.chunk_overlap) :=
    Nat.le_max_left _ _
  omega

/-- `TextChunker._split_single_document` (the chunk list it returns). -/
def split_single_document (cfg : ChunkerConfig) (doc : Document) : List Chunk :=
  (splitLoop cfg doc.content doc.source doc.metadata 0 []).1

/-- `TextChunker.split_documents`: concatenation of the per-document splits. -/
def split_documents (cfg : ChunkerConfig) (docs : List Document) : List Chunk :=
  (docs.map (split_single_document cfg)).flatten

theorem splitLoop_stop (cfg : ChunkerConfig) (content source : Str) (md : Metadata)
    (start : ℕ) (acc : List Chunk) (h : ¬ start < content.length) :
    splitLoop cfg content source md start acc = (acc, 0) := by
  rw [splitLoop]
  simp [h]

theorem splitLoop_step (cfg : ChunkerConfig) (content source : Str) (md : Metadata)
    (start : ℕ) (acc : List Chunk) (h : start < content.length) :
    splitLoop cfg content source md start acc =
      ((splitLoop cfg content source md
          (max (start + 1) (chunkEnd cfg content start - cfg.chunk_overlap))
          (if (pyStrip (sliceStr content start (chunkEnd cfg content start))).isEmpty
            then acc
            else acc ++ [⟨pyStrip (sliceStr content start (chunkEnd cfg content start)),
              source, acc.length, start, chunkEnd cfg content start, md⟩])).1,
        (splitLoop cfg content source md
          (max (start + 1) (chunkEnd cfg content start - cfg.chunk_overlap))
          (if (pyStrip (sliceStr content start (chunkEnd cfg content start))).isEmpty
            then acc
            else acc ++ [⟨pyStrip (sliceStr content start (chunkEnd cfg content start)),
              source, acc.length, start, chunkEnd cfg content start, md⟩])).2 + 1) := by
  rw [splitLoop]
  simp [h]

/-! ### Vector store (`vector_store.py`) -/

/-- The three parallel lists of `SimpleVectorStore`. -/
structure SimpleVectorStore where
  embeddings : List Vec
  chunks : List Chunk
  metadata : List Metadata

def emptyStore : SimpleVectorStore := ⟨[], [], []⟩

/-- The all-zero placeholder embedding `[0.0] * 1536`. -/
def zeroVec : Vec := List.replicate 1536 0

/-- `SimpleVectorStore.add_chunks`: empty `embeddings` means every chunk gets
a placeholder; otherwise `zip` pairs chunks with embeddings (an empty
embedding also gets a placeholder). -/
def add_chunks (store : SimpleVectorStore) (chunks : List Chunk)
    (embeddings : List Vec) : SimpleVectorStore :=
  if embeddings.isEmpty then
    { embeddings := store.embeddings ++ chunks.map (fun _ => zeroVec),
      chunks := store.chunks ++ chunks,
      metadata := store.metadata ++ chunks.map (fun c => c.metadata) }
  else
    { embeddings := store.embeddings ++
        (chunks.zip embeddings).map (fun p => if p.2.isEmpty then zeroVec else p.2),
      chunks := store.chunks ++ (chunks.zip embeddings).map (fun p => p.1),
      metadata := store.metadata ++ (chunks.zip embeddings).map (fun p => p.1.metadata) }

/-- `np.dot` on two equal-length float vectors. -/
def listDot (v w : Vec) : ℝ := ((v.zip w).map (fun p => p.1 * p.2)).sum

/-- `SimpleVectorStore._cosine_similarity`: `dot/(‖a‖‖b‖)`, and `0` when
either norm is `0`. -/
noncomputable def cosineSim (vec1 vec2 : Vec) : ℝ :=
  let dot_product := listDot vec1 vec2
  let norm1 := Real.sqrt (listDot vec1 vec1)
  let norm2 := Real.sqrt (listDot vec2 vec2)
  if norm1 = 0 ∨ norm2 = 0 then 0 else dot_product / (norm1 * norm2)

/-- `SimpleVectorStore.search`: empty store short-circuits to `[]`; otherwise
compute all similarities, take `np.argsort(sims)[-top_k:][::-1]` (note that
for `top_k = 0` the Python slice `[-0:]` is the whole list), and keep the
strictly positive ones.  `np.argsort` is modelled as a deterministic sort of
the index list by ascending similarity. -/
noncomputable def search (s : SimpleVectorStore) (query_embedding : Vec)
    (top_k : ℕ) : List (Chunk × ℝ) :=
  if s.embeddings.isEmpty then []
  else
    let sims := s.embeddings.map (fun e => cosineSim query_embedding e)
    let sortedIdx := List.insertionSort
      (fun i j => sims.getD i 0 ≤ sims.getD j 0) (List.range sims.length)
    let topIdx := (if top_k = 0 then sortedIdx
      else sortedIdx.drop (sims.length - top_k)).reverse
    (topIdx.filter (fun i => decide (0 < sims.getD i 0))).map
      (fun i => (s.chunks.getD i default, sims.getD i 0))

/-! ### Embedding system (`embedding_system.py`)

`_generate_single_embedding` is a provider call that returns `None` on any
exception; it is modelled as a function `embed : Str → Option Vec`. -/

/-- `EmbeddingSystem.generate_embeddings`: iterate over the texts and append
the result of the single-embedding call only when it is truthy (not `None`
and not the empty list). -/
def generate_embeddings (embed : Str → Option Vec) (texts : List Str) : List Vec :=
  match texts with
  | [] => []
  | t :: ts =>
    match embed t with
    | none => generate_embeddings embed ts
    | some e => if e.isEmpty then generate_embeddings embed ts
        else e :: generate_embeddings embed ts

/-! ### Pipeline orchestrator (`rag_pipeline.py`) -/

structure RAGState where
  vector_store : SimpleVectorStore
  is_initialized : Bool

def freshState : RAGState := ⟨emptyStore, false⟩

/-- The chunk dict produced at query time
(`{'chunk': .., 'similarity': .., 'content': .., 'source': ..}`). -/
structure Retrieved where
  chunk : Chunk
  similarity : ℝ
  content : Str
  source : Str

structure QueryResponse where
  response : Str
  sources : List Retrieved
  question : Str

/-- The part of `RAGPipeline.initialize` after chunking: batch-embed the
chunk texts, keep the `zip`-pairs whose embedding is truthy, then store
either all chunks with no embeddings (when nothing survived) or the
surviving pairs. -/
def initializeCore (embed : Str → Option Vec) (chunks : List Chunk)
    (st : RAGState) : RAGState :=
  let chunk_texts := chunks.map (fun c => c.content)
  let embeddings := generate_embeddings embed chunk_texts
  let valid_chunks := ((chunks.zip embeddings).filter (fun p => !p.2.isEmpty)).map (fun p => p.1)
  let valid_embeddings := ((chunks.zip embeddings).filter (fun p => !p.2.isEmpty)).map (fun p => p.2)
  if valid_chunks.isEmpty then
    ⟨add_chunks st.vector_store chunks [], true⟩
  else
    ⟨add_chunks st.vector_store valid_chunks valid_embeddings, true⟩

/-- `RAGPipeline.initialize`, with the loaded documents passed in (document
loading is an external collaborator) and the chunker configuration explicit
(the pipeline constructor uses `defaultChunker`). -/
def initializeSystem (cfg : ChunkerConfig) (embed : Str → Option Vec)
    (docs : List Document) (st : RAGState) : RAGState :=
  initializeCore embed (split_documents cfg docs) st

/-- Python `str.lower()`, character-wise. -/
def pyLower (s : Str) : Str := s.map Char.toLower

/-- Python substring containment `needle in hay`. -/
def strContains (hay needle : Str) : Bool :=
  needle.isPrefixOf hay ||
    match hay with
    | [] => false
    | _ :: t => strContains t needle

/-- Helper for Python `str.split()`: current partial word is accumulated in
reverse in `acc`. -/
def pyWordsAux : Str → Str → List Str
  | [], acc => if acc.isEmpty then [] else [acc.reverse]
  | c :: rest, acc =>
    if c.isWhitespace then
      (if acc.isEmpty then pyWordsAux rest [] else acc.reverse :: pyWordsAux rest [])
    else pyWordsAux rest (c :: acc)

/-- Python `str.split()` with no separator: split on whitespace runs,
dropping empty tokens. -/
def pyWords (s : Str) : List Str := pyWordsAux s []

/-- The scan loop of `RAGPipeline._basic_text_search`: for each chunk append
a result scored `1.0` on a whole-question substring match, else `0.5` when
any whitespace token of the question occurs, else nothing. -/
def basicLoop (question_lower : Str) : List Chunk → List Retrieved → List Retrieved
  | [], results => results
  | chunk :: rest, results =>
    let content_lower := pyLower chunk.content
    if strContains content_lower question_lower then
      basicLoop question_lower rest (results ++ [⟨chunk, 1, chunk.content, chunk.source⟩])
    else if (pyWords question_lower).any (fun w => strContains content_lower w) then
      basicLoop question_lower rest (results ++ [⟨chunk, 0.5, chunk.content, chunk.source⟩])
    else basicLoop question_lower rest results

/-- Python `results.sort(key=lambda x: x['similarity'], reverse=True)`
(a stable descending sort by score). -/
noncomputable def sortBySimilarityDesc (results : List Retrieved) : List Retrieved :=
  List.insertionSort (fun a b => b.similarity ≤ a.similarity) results

/-- `RAGPipeline._basic_text_search`. -/
noncomputable def basic_text_search (store : SimpleVectorStore) (question : Str)
    (top_k : ℕ) : List Retrieved :=
  (sortBySimilarityDesc (basicLoop (pyLower question) store.chunks [])).take top_k

/-- The apostrophe character (U+0027), spliced into message literals. -/
def apos : Char := Char.ofNat 39

def natToStr (n : ℕ) : Str := Nat.toDigits 10 n

def errNotInitializedMsg : Str := "RAG system not initialized. Call initialize() first.".data

def noRelevantInfoMsg : Str :=
  "I couldn".data ++ [apos] ++ "t find any relevant information to answer your question.".data

def noRelevantFoundMsg : Str := "No relevant information found.".data

def promptPrefix : Str :=
  "Based on the following information, provide a comprehensive and accurate answer to the question.\n\nContext Information:\n".data

def promptQuestionLabel : Str := "\n\nQuestion: ".data

def promptInstructions : Str :=
  "\n\nInstructions:\n- Use only the information provided in the context\n- If the context doesn".data
    ++ [apos]
    ++ "t contain enough information to fully answer the question, say so\n- Provide a clear, well-structured answer\n- Cite the sources when possible\n\nAnswer:".data

/-- One block `"Source i (source):\ncontent"` of the LLM context. -/
def contextPart (i : ℕ) (r : Retrieved) : Str :=
  "Source ".data ++ natToStr i ++ " (".data ++ r.chunk.source ++ "):\n".data ++ r.chunk.content

/-- Python `"\n\n".join(parts)`. -/
def joinParts : List Str → Str
  | [] => []
  | [p] => p
  | p :: rest => p ++ "\n\n".data ++ joinParts rest

def mkContext (retrieved_chunks : List Retrieved) : Str :=
  joinParts ((List.enumFrom 1 retrieved_chunks).map (fun p => contextPart p.1 p.2))

def mkPrompt (question : Str) (context : Str) : Str :=
  promptPrefix ++ context ++ promptQuestionLabel ++ question ++ promptInstructions

def basicRespHeader (question : Str) : Str :=
  "Based on the available information, here".data ++ [apos]
    ++ "s what I found about ".data ++ [apos] ++ question ++ [apos] ++ ":\n\n".data

def basicRespNote : Str :=
  "Note: This is a basic summary. For a more coherent answer, please ensure your OpenAI API key is configured.".data

/-- The numbered `"i. From source:\ncontent\n\n"` blocks of
`RAGPipeline._format_basic_response` (`enumerate(retrieved_chunks, 1)`). -/
def fmtChunksFrom (i : ℕ) : List Retrieved → Str
  | [] => []
  | r :: rest => natToStr i ++ ". From ".data ++ r.chunk.source ++ ":\n".data
      ++ r.chunk.content ++ "\n\n".data ++ fmtChunksFrom (i + 1) rest

/-- `RAGPipeline._format_basic_response`. -/
def format_basic_response (question : Str) (retrieved_chunks : List Retrieved) : Str :=
  if retrieved_chunks.isEmpty then noRelevantFoundMsg
  else basicRespHeader question ++ fmtChunksFrom 1 retrieved_chunks ++ basicRespNote

/-- `RAGPipeline.generate_response`.  `_generate_with_openai` is the
answer-generation provider call, modelled as `llm : Str → Option Str`
(`none` = the call raised). -/
def generate_response (llm : Str → Option Str) (question : Str)
    (retrieved_chunks : List Retrieved) : Str :=
  if retrieved_chunks.isEmpty then noRelevantInfoMsg
  else
    match llm (mkPrompt question (mkContext retrieved_chunks)) with
    | some response => response
    | none => format_basic_response question retrieved_chunks

/-- `RAGPipeline.query`: the `ValueError` raised before initialization is
modelled as `Except.error`. -/
noncomputable def query (embed : Str → Option Vec) (llm : Str → Option Str)
    (st : RAGState) (question : Str) (top_k : ℕ) : Except Str QueryResponse :=
  if st.is_initialized = false then Except.error errNotInitializedMsg
  else
    let question_embeddings := generate_embeddings embed [question]
    let retrieved_chunks :=
      if question_embeddings.isEmpty then basic_text_search st.vector_store question top_k
      else
        let question_embedding := question_embeddings.headD []
        if question_embedding.isEmpty then basic_text_search st.vector_store question top_k
        else (search st.vector_store question_embedding top_k).map
          (fun p => ⟨p.1, p.2, p.1.content, p.1.source⟩)
    Except.ok ⟨generate_response llm question retrieved_chunks, retrieved_chunks, question⟩

/-! ### Specification-side definition for the lexical fallback (claim C7) -/

/-- The per-passage score of spec §4.3, phrased from the spec's words:
`1.0` when the whole lower-cased question is a substring of the lower-cased
passage, else `0.5` when any whitespace-delimited token of the question is a
substring, else the passage is excluded. -/
def lexicalScore (question_lower : Str) (chunk : Chunk) : Option Retrieved :=
  let content_lower := pyLower chunk.content
  if strContains content_lower question_lower then
    some ⟨chunk, 1, chunk.content, chunk.source⟩
  else if (pyWords question_lower).any (fun w => strContains content_lower w) then
    some ⟨chunk, 0.5, chunk.content, chunk.source⟩
  else none

/-- Spec §4.3 as a whole: score-and-filter every stored passage, sort by
descending score, truncate to `k`. -/
noncomputable def specLexicalSearch (store : SimpleVectorStore) (question : Str)
    (top_k : ℕ) : List Retrieved :=
  (sortBySimilarityDesc (store.chunks.filterMap (lexicalScore (pyLower question)))).take top_k

/-! ### Concrete fixtures used by counterexamples and witnesses -/

def txtA : Str := "a".data

def txtB : Str := "b".data

def srcD : Str := "doc".data

/-- A provider that fails on the text `"a"` and succeeds elsewhere. -/
def embedFailA : Str → Option Vec := fun t => if t = txtA then none else some [1]

def chunkA : Chunk := ⟨txtA, srcD, 0, 0, 1, []⟩

def chunkB : Chunk := ⟨txtB, srcD, 1, 1, 2, []⟩

def retA : Retrieved := ⟨chunkA, 1, txtA, srcD⟩

def docW : Document := ⟨"hi".data, srcD, []⟩

def storeW : SimpleVectorStore := ⟨[zeroVec], [chunkA], [[]]⟩

def readyState : RAGState := ⟨storeW, true⟩

def storeC5 : SimpleVectorStore := ⟨[[1]], [chunkA], [[]]⟩

def cexContent : Str := "abc.efghij".data

def cexCfg : ChunkerConfig := ⟨5, 3⟩

/-! ### Shared helper lemmas -/

theorem generate_embeddings_eq_nil (embed : Str → Option Vec) (texts : List Str)
    (h : ∀ t ∈ texts, embed t = none) : generate_embeddings embed texts = [] := by
  induction texts with
  | nil => rfl
  | cons t ts ih =>
    rw [generate_embeddings, h t (List.mem_cons_self t ts)]
    exact ih fun u hu => h u (List.mem_cons_of_mem t hu)

/-- If the question embedding is dropped, `query` takes the lexical-fallback
branch and assembles its response from `basic_text_search` alone. -/
theorem query_fallback_eq (embed : Str → Option Vec) (llm : Str → Option Str)
    (st : RAGState) (question : Str) (top_k : ℕ)
    (hinit : st.is_initialized = true)
    (hq : generate_embeddings embed [question] = []) :
    query embed llm st question top_k =
      Except.ok ⟨generate_response llm question (basic_text_search st.vector_store question top_k),
        basic_text_search st.vector_store question top_k, question⟩ := by
  unfold query
  rw [hinit, if_neg (by simp), hq]
  simp

/-! ### Claim C1 -/

/-- C1: the spec claims `generate_embeddings` returns one entry per input
text, positionally aligned, with a placeholder at failed positions.  The
code instead silently drops failed items: with two input texts, the first of
which fails to embed, it returns the single-surviving-vector list `[[1]]`
(length 1, not 2, and no placeholder marks the failed position). -/
theorem C1_generate_embeddings_drops_failures :
    generate_embeddings embedFailA [txtA, txtB] = [[(1 : ℝ)]] ∧
    (generate_embeddings embedFailA [txtA, txtB]).length ≠ 2 := by
  constructor
  · rfl
  · intro h
    rw [show generate_embeddings embedFailA [txtA, txtB] = [[(1 : ℝ)]] from rfl] at h
    simp at h

/-! ### Claim C2 -/

/-- C2: the spec claims `initialize` stores exactly the passages whose own
embedding succeeded, paired with their own vectors.  Because
`generate_embeddings` drops failures, the `zip` in `initialize` misaligns:
with chunks `A` (embedding fails) and `B` (embedding succeeds with `[1]`),
the pipeline stores chunk `A` paired with `B`'s vector and discards `B`. -/
theorem C2_initialize_misaligns_survivors :
    (initializeCore embedFailA [chunkA, chunkB] freshState).vector_store.chunks = [chunkA] ∧
    (initializeCore embedFailA [chunkA, chunkB] freshState).vector_store.embeddings
      = [[(1 : ℝ)]] := by
  exact ⟨rfl, rfl⟩

/-! ### Claim C3 -/

/-- C3: when every chunk's embedding generation fails, `initialize` does not
raise: it stores all chunks, one all-zero placeholder vector per chunk, and
still marks the pipeline initialized. -/
theorem C3_total_embedding_failure_degrades (cfg : ChunkerConfig)
    (embed : Str → Option Vec) (docs : List Document) (st : RAGState)
    (h : ∀ c ∈ split_documents cfg docs, embed c.content = none) :
    (initializeSystem cfg embed docs st).is_initialized = true ∧
    (initializeSystem cfg embed docs st).vector_store.chunks
      = st.vector_store.chunks ++ split_documents cfg docs ∧
    (initializeSystem cfg embed docs st).vector_store.embeddings
      = st.vector_store.embeddings ++ (split_documents cfg docs).map (fun _ => zeroVec) := by
  have hg : generate_embeddings embed ((split_documents cfg docs).map (fun c => c.content)) = [] := by
    refine generate_embeddings_eq_nil _ _ ?_
    intro t ht
    obtain ⟨c, hc, rfl⟩ := List.mem_map.1 ht
    exact h c hc
  simp only [initializeSystem, initializeCore, hg]
  simp [add_chunks]

/-- C3 witness: a concrete document with an always-failing provider. -/
theorem C3_witness :
    (initializeSystem defaultChunker (fun _ => none) [docW] freshState).is_initialized = true ∧
    (initializeSystem defaultChunker (fun _ => none) [docW] freshState).vector_store.chunks
      = freshState.vector_store.chunks ++ split_documents defaultChunker [docW] ∧
    (initializeSystem defaultChunker (fun _ => none) [docW] freshState).vector_store.embeddings
      = freshState.vector_store.embeddings
        ++ (split_documents defaultChunker [docW]).map (fun _ => zeroVec) :=
  C3_total_embedding_failure_degrades defaultChunker (fun _ => none) [docW] freshState
    (fun _ _ => rfl)

/-! ### Claim C4 -/

/-- Each loop iteration advances `start` by at least one, so the iteration
count is bounded by the number of characters left of the cursor. -/
theorem splitLoop_iterations_le (cfg : ChunkerConfig) (content source : Str)
    (md : Metadata) :
    ∀ fuel start acc, content.length - start ≤ fuel →
      (splitLoop cfg content source md start acc).2 ≤ content.length - start := by
  intro fuel
  induction fuel with
  | zero =>
    intro start acc h
    rw [splitLoop_stop _ _ _ _ _ _ (by omega)]
    simp
  | succ n ih =>
    intro start acc h
    by_cases hs : start < content.length
    · rw [splitLoop_step _ _ _ _ _ _ hs]
      have h1 : start + 1 ≤ max (start + 1) (chunkEnd cfg content start - cfg.chunk_overlap) :=
        Nat.le_max_left _ _
      have h2 := ih (max (start + 1) (chunkEnd cfg content start - cfg.chunk_overlap))
        (if (pyStrip (sliceStr content start (chunkEnd cfg content start))).isEmpty
          then acc
          else acc ++ [⟨pyStrip (sliceStr content start (chunkEnd cfg content start)),
            source, acc.length, start, chunkEnd cfg content start, md⟩]) (by omega)
      simp only
      omega
    · rw [splitLoop_stop _ _ _ _ _ _ hs]
      simp

/-- C4 (amended): for `chunk_size ≥ 1` and `overlap < chunk_size` the
chunking loop of `_split_single_document` terminates, but the tight
guarantee is `len(content)` iterations, not
`ceil(len(content)/(chunk_size-overlap)) + 1`: the sentence-boundary
adjustment may pull `end` back to just past a period, after which
`max(start+1, end-overlap)` advances the cursor by only one character. -/
theorem C4_chunker_iteration_bound (cfg : ChunkerConfig) (content source : Str)
    (md : Metadata) (h1 : 1 ≤ cfg.chunk_size) (h2 : cfg.chunk_overlap < cfg.chunk_size) :
    (splitLoop cfg content source md 0 []).2 ≤ content.length := by
  have h := splitLoop_iterations_le cfg content source md content.length 0 [] (by omega)
  omega

/-- C4 witness: the ten-character document and configuration of the
counterexample stay within the amended bound. -/
theorem C4_witness :
    1 ≤ cexCfg.chunk_size ∧ cexCfg.chunk_overlap < cexCfg.chunk_size ∧
    (splitLoop cexCfg cexContent srcD [] 0 []).2 ≤ cexContent.length :=
  ⟨by decide, by decide,
    C4_chunker_iteration_bound cexCfg cexContent srcD [] (by decide) (by decide)⟩

/-- C4 counterexample: with `chunk_size = 5`, `overlap = 3` and the
ten-character content `"abc.efghij"` the loop runs 7 iterations, exceeding
the claimed bound `ceil(10 / (5 - 3)) + 1 = 6`. -/
theorem C4_counterexample :
    ¬ ((splitLoop cexCfg cexContent srcD [] 0 []).2 ≤
        (cexContent.length + (cexCfg.chunk_size - cexCfg.chunk_overlap) - 1)
          / (cexCfg.chunk_size - cexCfg.chunk_overlap) + 1) := by
  have h7 : (splitLoop cexCfg cexContent srcD [] 0 []).2 = 7 := by
    simp +decide only [splitLoop_step, splitLoop_stop]
  rw [h7]
  decide

/-! ### Claim C5 -/

theorem search_length_consonant (s : SimpleVectorStore) (q : Vec) (top_k : ℕ)
    (hk : 1 ≤ top_k) : (search s q top_k).length ≤ top_k := by
  rw [search]
  by_cases he : s.embeddings.isEmpty
  · simp [he]
  · simp only [he, Bool.false_eq_true, if_false]
    rw [if_neg (by omega : ¬ top_k = 0)]
    rw [List.length_map]
    refine le_trans (List.length_filter_le _ _) ?_
    rw [List.length_reverse, List.length_drop, List.length_insertionSort, List.length_range]
    omega

theorem search_sorted_desc (s : SimpleVectorStore) (q : Vec) (top_k : ℕ) :
    List.Sorted (fun a b : Chunk × ℝ => b.2 ≤ a.2) (search s q top_k) := by
  rw [search]
  by_cases he : s.embeddings.isEmpty
  · simp [he]
  · simp only [he, Bool.false_eq_true, if_false]
    set sims := s.embeddings.map (fun e => cosineSim q e) with hsims
    haveI ht : IsTotal ℕ (fun i j => sims.getD i 0 ≤ sims.getD j 0) :=
      ⟨fun a b => le_total _ _⟩
    haveI htr : IsTrans ℕ (fun i j => sims.getD i 0 ≤ sims.getD j 0) :=
      ⟨fun a b c hab hbc => le_trans hab hbc⟩
    have hsorted : List.Sorted (fun i j => sims.getD i 0 ≤ sims.getD j 0)
        (List.insertionSort (fun i j => sims.getD i 0 ≤ sims.getD j 0)
          (List.range sims.length)) :=
      List.sorted_insertionSort _ _
    have hdrop : List.Pairwise (fun i j => sims.getD i 0 ≤ sims.getD j 0)
        ((if top_k = 0 then List.insertionSort (fun i j => sims.getD i 0 ≤ sims.getD j 0)
            (List.range sims.length)
          else (List.insertionSort (fun i j => sims.getD i 0 ≤ sims.getD j 0)
            (List.range sims.length)).drop (sims.length - top_k))) := by
      split_ifs
      · exact hsorted
      · exact List.Pairwise.sublist (List.drop_sublist _ _) hsorted
    have hrev : List.Pairwise (fun i j => sims.getD j 0 ≤ sims.getD i 0)
        ((if top_k = 0 then List.insertionSort (fun i j => sims.getD i 0 ≤ sims.getD j 0)
            (List.range sims.length)
          else (List.insertionSort (fun i j => sims.getD i 0 ≤ sims.getD j 0)
            (List.range sims.length)).drop (sims.length - top_k)).reverse) :=
      List.pairwise_reverse.2 hdrop
    have hfilt := List.Pairwise.sublist (List.filter_sublist
      (p := fun i => decide (0 < sims.getD i 0)) _) hrev
    exact List.pairwise_map.2 (hfilt.imp fun hab => hab)

theorem search_scores_positive (s : SimpleVectorStore) (q : Vec) (top_k : ℕ) :
    ∀ r ∈ search s q top_k, 0 < r.2 := by
  intro r hr
  rw [search] at hr
  by_cases he : s.embeddings.isEmpty
  · simp [he] at hr
  · simp only [he, Bool.false_eq_true, if_false] at hr
    obtain ⟨i, hi, rfl⟩ := List.mem_map.1 hr
    have := (List.mem_filter.1 hi).2
    exact of_decide_eq_true this

theorem search_empty_store (cs : List Chunk) (ms : List Metadata) (q : Vec) (k : ℕ) :
    search ⟨[], cs, ms⟩ q k = [] := by
  simp [search]

theorem listDot_replicate_zero (m : ℕ) :
    listDot (List.replicate m 0) (List.replicate m 0) = 0 := by
  simp [listDot]

/-- Cosine similarity of any query against an all-zero placeholder vector is
`0` (the zero-norm guard fires). -/
theorem cosineSim_zero_right (q : Vec) (m : ℕ) :
    cosineSim q (List.replicate m 0) = 0 := by
  simp only [cosineSim]
  rw [if_pos (Or.inr (by rw [listDot_replicate_zero, Real.sqrt_zero]))]

/-- C5 (amended): for every `k ≥ 1`, `search` returns at most `k` results,
sorted by descending cosine similarity, all with strictly positive score; an
empty store yields the empty sequence; and all-zero placeholder vectors
score `0` against any query, hence never appear.  (For `k = 0` the Python
slice `[-0:]` selects the whole index list, so the length bound fails —
see the counterexample.) -/
theorem C5_search_contract (s : SimpleVectorStore) (q : Vec) (top_k : ℕ)
    (hk : 1 ≤ top_k) :
    (search s q top_k).length ≤ top_k ∧
    List.Sorted (fun a b : Chunk × ℝ => b.2 ≤ a.2) (search s q top_k) ∧
    (∀ r ∈ search s q top_k, 0 < r.2) ∧
    (∀ cs ms, search ⟨[], cs, ms⟩ q top_k = []) ∧
    (∀ m : ℕ, cosineSim q (List.replicate m 0) = 0) :=
  ⟨search_length_consonant s q top_k hk, search_sorted_desc s q top_k,
    search_scores_positive s q top_k, fun cs ms => search_empty_store cs ms q top_k,
    cosineSim_zero_right q⟩

/-- C5 witness: the contract instantiated at a one-vector store with `k = 1`. -/
theorem C5_witness :
    1 ≤ 1 ∧
    ((search storeC5 [(1 : ℝ)] 1).length ≤ 1 ∧
      List.Sorted (fun a b : Chunk × ℝ => b.2 ≤ a.2) (search storeC5 [(1 : ℝ)] 1) ∧
      (∀ r ∈ search storeC5 [(1 : ℝ)] 1, 0 < r.2) ∧
      (∀ cs ms, search ⟨[], cs, ms⟩ [(1 : ℝ)] 1 = []) ∧
      (∀ m : ℕ, cosineSim [(1 : ℝ)] (List.replicate m 0) = 0)) :=
  ⟨le_refl 1, C5_search_contract storeC5 [(1 : ℝ)] 1 (le_refl 1)⟩

/-- C5 counterexample: the claim asserts `length ≤ k` for every `k`, but
`search(store, q, 0)` on a one-chunk store whose single similarity is `1`
returns that chunk (`np.argsort(sims)[-0:]` is the whole list), so the
result length is not `≤ 0`. -/
theorem C5_counterexample : ¬ (search storeC5 [(1 : ℝ)] 0).length ≤ 0 := by
  have h : listDot [(1 : ℝ)] [(1 : ℝ)] = 1 := by
    simp [listDot]
  have hcos : cosineSim [(1 : ℝ)] [(1 : ℝ)] = 1 := by
    rw [cosineSim]
    simp only [h, Real.sqrt_one]
    norm_num
  have hres : search storeC5 [(1 : ℝ)] 0 = [(chunkA, 1)] := by
    rw [search]
    simp only [storeC5, List.isEmpty, List.map, hcos]
    norm_num [List.insertionSort, List.filter, chunkA]
  rw [hres]
  norm_num

/-! ### Claim C6 -/

/-- C6: on an initialized pipeline, if the provider fails for the question
(`None`) or yields an empty vector, `query` assembles its result exclusively
from the lexical fallback search; the vector-index search contributes
nothing to the response. -/
theorem C6_query_uses_lexical_fallback (embed : Str → Option Vec)
    (llm : Str → Option Str) (st : RAGState) (question : Str) (top_k : ℕ)
    (hinit : st.is_initialized = true)
    (hfail : embed question = none ∨ embed question = some []) :
    query embed llm st question top_k =
      Except.ok ⟨generate_response llm question (basic_text_search st.vector_store question top_k),
        basic_text_search st.vector_store question top_k, question⟩ := by
  refine query_fallback_eq embed llm st question top_k hinit ?_
  rcases hfail with h | h <;> simp [generate_embeddings, h]

/-- C6 witness: a failing provider on a concrete one-chunk ready pipeline. -/
theorem C6_witness :
    query (fun _ => none) (fun _ => none) readyState txtB 5 =
      Except.ok ⟨generate_response (fun _ => none) txtB
          (basic_text_search readyState.vector_store txtB 5),
        basic_text_search readyState.vector_store txtB 5, txtB⟩ :=
  C6_query_uses_lexical_fallback _ _ readyState txtB 5 rfl (Or.inl rfl)

/-! ### Claim C7 -/

theorem basicLoop_eq_filterMap (ql : Str) (chunks : List Chunk) :
    ∀ res, basicLoop ql chunks res = res ++ chunks.filterMap (lexicalScore ql) := by
  induction chunks with
  | nil => intro res; simp [basicLoop]
  | cons c rest ih =>
    intro res
    simp only [basicLoop, lexicalScore, List.filterMap_cons]
    split_ifs with h1 h2
    · rw [ih]
      simp
    · rw [ih]
      simp
    · rw [ih]

/-- C7: the lexical fallback search is exactly the spec's description:
score `1.0` on a whole-question substring match, else `0.5` on any-token
match, else exclude; then sort by descending score and truncate to `k`. -/
theorem C7_lexical_scoring (store : SimpleVectorStore) (question : Str) (top_k : ℕ) :
    basic_text_search store question top_k = specLexicalSearch store question top_k := by
  unfold basic_text_search specLexicalSearch
  rw [basicLoop_eq_filterMap]
  simp

/-! ### Claim C8 -/

/-- C8: calling `query` before initialization is the one hard failure: it
returns the state error, and on an initialized pipeline `query` always
returns a `QueryResponse`. -/
theorem C8_query_precondition (embed : Str → Option Vec) (llm : Str → Option Str)
    (st : RAGState) (question : Str) (top_k : ℕ) :
    (st.is_initialized = false →
      query embed llm st question top_k = Except.error errNotInitializedMsg) ∧
    (st.is_initialized = true →
      ∃ r, query embed llm st question top_k = Except.ok r) := by
  constructor
  · intro h
    unfold query
    rw [h, if_pos rfl]
  · intro h
    unfold query
    rw [h, if_neg (by simp)]
    exact ⟨_, rfl⟩

/-- C8 witness: the error on a fresh pipeline, a response on a ready one. -/
theorem C8_witness :
    query (fun _ => none) (fun _ => none) freshState txtB 5
      = Except.error errNotInitializedMsg ∧
    ∃ r, query (fun _ => none) (fun _ => none) readyState txtB 5 = Except.ok r :=
  ⟨(C8_query_precondition (fun _ => none) (fun _ => none) freshState txtB 5).1 rfl,
    (C8_query_precondition (fun _ => none) (fun _ => none) readyState txtB 5).2 rfl⟩

/-! ### Claim C9 -/

theorem mem_infix_fmtChunksFrom (r : Retrieved) (l : List Retrieved) :
    ∀ i : ℕ, r ∈ l →
      r.chunk.source <:+: fmtChunksFrom i l ∧ r.chunk.content <:+: fmtChunksFrom i l := by
  induction l with
  | nil => intro i h; cases h
  | cons a rest ih =>
    intro i h
    rcases List.mem_cons.1 h with rfl | hmem
    · constructor
      · exact ⟨natToStr i ++ ". From ".data,
          ":\n".data ++ r.chunk.content ++ "\n\n".data ++ fmtChunksFrom (i + 1) rest,
          by simp [fmtChunksFrom, List.append_assoc]⟩
      · exact ⟨natToStr i ++ ". From ".data ++ r.chunk.source ++ ":\n".data,
          "\n\n".data ++ fmtChunksFrom (i + 1) rest,
          by simp [fmtChunksFrom, List.append_assoc]⟩
    · have h2 := ih (i + 1) hmem
      have hsuf : fmtChunksFrom (i + 1) rest <:+: fmtChunksFrom i (a :: rest) :=
        ⟨natToStr i ++ ". From ".data ++ a.chunk.source ++ ":\n".data
            ++ a.chunk.content ++ "\n\n".data, [],
          by simp [fmtChunksFrom, List.append_assoc]⟩
      exact ⟨h2.1.trans hsuf, h2.2.trans hsuf⟩

/-- C9: when the answer-generation provider raises on the assembled prompt,
`generate_response` returns the templated fallback, whose text contains
every retrieved passage's source identifier and content; with no retrieved
passages it returns the fixed no-information message for any provider. -/
theorem C9_generation_fallback (llm : Str → Option Str) (question : Str)
    (retrieved_chunks : List Retrieved)
    (hne : retrieved_chunks ≠ [])
    (hfail : llm (mkPrompt question (mkContext retrieved_chunks)) = none) :
    generate_response llm question retrieved_chunks
      = format_basic_response question retrieved_chunks ∧
    (∀ r ∈ retrieved_chunks,
      r.chunk.source <:+: generate_response llm question retrieved_chunks ∧
      r.chunk.content <:+: generate_response llm question retrieved_chunks) ∧
    (∀ llm2 : Str → Option Str, generate_response llm2 question [] = noRelevantInfoMsg) := by
  have hemp : retrieved_chunks.isEmpty = false := by
    simpa using hne
  have hfb : generate_response llm question retrieved_chunks
      = format_basic_response question retrieved_chunks := by
    unfold generate_response
    rw [hemp, if_neg (by simp), hfail]
  refine ⟨hfb, ?_, fun llm2 => rfl⟩
  intro r hr
  rw [hfb]
  unfold format_basic_response
  rw [hemp, if_neg (by simp)]
  have h2 := mem_infix_fmtChunksFrom r retrieved_chunks 1 hr
  have hmid : fmtChunksFrom 1 retrieved_chunks <:+:
      basicRespHeader question ++ fmtChunksFrom 1 retrieved_chunks ++ basicRespNote :=
    List.infix_append _ _ _
  exact ⟨h2.1.trans hmid, h2.2.trans hmid⟩

/-- C9 witness: a raising provider, one concrete retrieved chunk. -/
theorem C9_witness :
    [retA] ≠ ([] : List Retrieved) ∧
    (generate_response (fun _ => none) txtB [retA] = format_basic_response txtB [retA] ∧
      (∀ r ∈ [retA], r.chunk.source <:+: generate_response (fun _ => none) txtB [retA] ∧
        r.chunk.content <:+: generate_response (fun _ => none) txtB [retA]) ∧
      (∀ llm2 : Str → Option Str, generate_response llm2 txtB [] = noRelevantInfoMsg)) :=
  ⟨by simp, C9_generation_fallback (fun _ => none) txtB [retA] (by simp) rfl⟩

/-! ### Claim C10 -/

/-- The empty string is a substring of every string, so the exact-match
branch fires for the empty question. -/
theorem strContains_nil_needle (hay : Str) : strContains hay [] = true := by
  cases hay <;> simp [strContains, List.isPrefixOf]

theorem basicLoop_nil_question (chunks : List Chunk) :
    ∀ res, basicLoop [] chunks res
      = res ++ chunks.map (fun c => ⟨c, 1, c.content, c.source⟩) := by
  induction chunks with
  | nil => intro res; simp [basicLoop]
  | cons c rest ih =>
    intro res
    simp only [basicLoop, strContains_nil_needle, if_pos]
    rw [ih]
    simp

theorem pairwise_const_one (chunks : List Chunk) :
    List.Pairwise (fun a b : Retrieved => b.similarity ≤ a.similarity)
      (chunks.map (fun c => ⟨c, 1, c.content, c.source⟩)) := by
  refine List.pairwise_map.2 ?_
  induction chunks with
  | nil => exact List.Pairwise.nil
  | cons c rest ih => exact List.Pairwise.cons (fun b _ => le_refl 1) ih

theorem sort_const_one (chunks : List Chunk) :
    sortBySimilarityDesc (chunks.map (fun c => ⟨c, 1, c.content, c.source⟩))
      = chunks.map (fun c => ⟨c, 1, c.content, c.source⟩) := by
  unfold sortBySimilarityDesc
  exact List.Sorted.insertionSort_eq (pairwise_const_one chunks)

theorem basic_text_search_nil_question (store : SimpleVectorStore) (top_k : ℕ) :
    basic_text_search store [] top_k
      = (store.chunks.map (fun c => ⟨c, 1, c.content, c.source⟩)).take top_k := by
  unfold basic_text_search
  rw [show pyLower ([] : Str) = [] from rfl, basicLoop_nil_question, List.nil_append,
    sort_const_one]

/-- C10: with the empty question, every stored chunk matches the exact-match
branch at score `1.0` (the empty string is a substring of everything), so a
degraded-mode `query` returns the first `k` stored chunks, all scored `1.0`
— in particular not the empty result when the store is non-empty and
`k ≥ 1`. -/
theorem C10_empty_question_matches_all (embed : Str → Option Vec)
    (llm : Str → Option Str) (st : RAGState) (top_k : ℕ)
    (hinit : st.is_initialized = true) (hfail : embed [] = none) :
    basic_text_search st.vector_store [] top_k
      = (st.vector_store.chunks.map (fun c => (⟨c, 1, c.content, c.source⟩ : Retrieved))).take top_k ∧
    query embed llm st [] top_k =
      Except.ok ⟨generate_response llm []
          ((st.vector_store.chunks.map (fun c => (⟨c, 1, c.content, c.source⟩ : Retrieved))).take top_k),
        (st.vector_store.chunks.map (fun c => (⟨c, 1, c.content, c.source⟩ : Retrieved))).take top_k, []⟩ ∧
    (st.vector_store.chunks ≠ [] → 1 ≤ top_k →
      (st.vector_store.chunks.map (fun c => (⟨c, 1, c.content, c.source⟩ : Retrieved))).take top_k ≠ []) := by
  have hb := basic_text_search_nil_question st.vector_store top_k
  refine ⟨hb, ?_, ?_⟩
  · have hq := query_fallback_eq embed llm st [] top_k hinit
      (by simp [generate_embeddings, hfail])
    rw [hq, hb]
  · intro hne hk
    cases hcs : st.vector_store.chunks with
    | nil => exact absurd hcs hne
    | cons c rest =>
      cases top_k with
      | zero => omega
      | succ n => simp

/-- C10 witness: the ready one-chunk pipeline with a failing provider and
the empty question. -/
theorem C10_witness :
    basic_text_search readyState.vector_store [] 5
      = (readyState.vector_store.chunks.map
          (fun c => (⟨c, 1, c.content, c.source⟩ : Retrieved))).take 5 ∧
    query (fun _ => none) (fun _ => none) readyState [] 5 =
      Except.ok ⟨generate_response (fun _ => none) []
          ((readyState.vector_store.chunks.map
            (fun c => (⟨c, 1, c.content, c.source⟩ : Retrieved))).take 5),
        (readyState.vector_store.chunks.map
          (fun c => (⟨c, 1, c.content, c.source⟩ : Retrieved))).take 5, []⟩ ∧
    (readyState.vector_store.chunks ≠ [] → 1 ≤ 5 →
      (readyState.vector_store.chunks.map
        (fun c => (⟨c, 1, c.content, c.source⟩ : Retrieved))).take 5 ≠ []) :=
  C10_empty_question_matches_all (fun _ => none) (fun _ => none) readyState 5 rfl rfl

end RAG
